import Mathlib

/-!
Shallow embedding of the calendar-grid logic of
`examples/models/file/calendars.py` (the `make_calendar` function and the
standard-library calendar/date semantics it relies on).

Dates are modelled as plain (year, month, day) triples; `pyWeekday` follows
CPython's `datetime.date.weekday` (proleptic Gregorian, Monday = 0), and the
grid enumeration follows `calendar.Calendar.itermonthdays`.
-/

namespace Calendars

/-- Python `datetime.date`, as a plain record (year, month, day). -/
structure PyDate where
  year : Nat
  month : Nat
  day : Nat
deriving DecidableEq, Repr

/-- Python `calendar.day_abbr`: the seven weekday abbreviations, Monday first. -/
def day_abbrs : List String := ["Mon", "Tue", "Wed", "Thu", "Fri", "Sat", "Sun"]

/-- Python `calendar.isleap`. -/
def isleap (year : Nat) : Bool :=
  year % 4 == 0 && (year % 100 != 0 || year % 400 == 0)

/-- Python `calendar.mdays` (index 0 unused). -/
def mdays : List Nat := [0, 31, 28, 31, 30, 31, 30, 31, 31, 30, 31, 30, 31]

/-- Number of days of the month, as computed by Python `calendar.monthrange`. -/
def daysInMonth (year month : Nat) : Nat :=
  mdays.getD month 0 + (if month == 2 && isleap year then 1 else 0)

/-- CPython `datetime._days_before_year`: days before January 1st of `year`. -/
def days_before_year (year : Nat) : Nat :=
  365 * (year - 1) + (year - 1) / 4 - (year - 1) / 100 + (year - 1) / 400

/-- CPython `datetime._DAYS_BEFORE_MONTH` (index 0 unused; CPython stores -1 there,
never read for a month in 1..12). -/
def days_before_month_table : List Nat :=
  [0, 0, 31, 59, 90, 120, 151, 181, 212, 243, 273, 304, 334]

/-- CPython `datetime._days_before_month`: days of `year` strictly before `month`. -/
def days_before_month (year month : Nat) : Nat :=
  days_before_month_table.getD month 0 + (if 2 < month && isleap year then 1 else 0)

/-- CPython `datetime.date.toordinal`: day number with January 1 of year 1 as day 1. -/
def toOrdinal (dt : PyDate) : Nat :=
  days_before_year dt.year + days_before_month dt.year dt.month + dt.day

/-- CPython `datetime.date.weekday`: Monday = 0 .. Sunday = 6.
(Ordinal 1, January 1 of year 1, is a Monday.) -/
def pyWeekday (dt : PyDate) : Nat :=
  (toOrdinal dt + 6) % 7

/-- Source line `workday = "linen"`. -/
def workday : String := "linen"

/-- Source line `weekend = "lightsteelblue"`. -/
def weekend : String := "lightsteelblue"

/-- Source `pick_weekdays`: `[ days[i % 7] for i in range(firstweekday, firstweekday+7) ]`. -/
def pick_weekdays (firstweekday : Nat) (days : List String) : List String :=
  (List.range 7).map (fun j => days.getD ((firstweekday + j) % 7) "")

/-- Source `day_names = pick_weekdays(day_abbrs)`. -/
def day_names (firstweekday : Nat) : List String :=
  pick_weekdays firstweekday day_abbrs

/-- Source `week_days = pick_weekdays([workday]*5 + [weekend]*2)`. -/
def week_days (firstweekday : Nat) : List String :=
  pick_weekdays firstweekday (List.replicate 5 workday ++ List.replicate 2 weekend)

/-- Source local function `weekday`: `(date.weekday() - firstweekday) % 7`
(Python `%` on ints is `Int.emod`). -/
def weekdayRel (firstweekday : Nat) (dt : PyDate) : Nat :=
  (((pyWeekday dt : Int) - (firstweekday : Int)) % 7).toNat

/-- Leading zero-cells of `Calendar(firstweekday).itermonthdays(year, month)`:
`(day1 - firstweekday) % 7` where `day1` is the weekday of the 1st. -/
def leading_blanks (year month firstweekday : Nat) : Nat :=
  (((pyWeekday ⟨year, month, 1⟩ : Int) - (firstweekday : Int)) % 7).toNat

/-- Trailing zero-cells of `itermonthdays`: `(firstweekday - day1 - ndays) % 7`. -/
def trailing_blanks (year month firstweekday : Nat) : Nat :=
  (((firstweekday : Int) - (pyWeekday ⟨year, month, 1⟩ : Int) - (daysInMonth year month : Int)) % 7).toNat

/-- Source `month_days`: `[ None if not day else str(day) for day in
calendar.itermonthdays(year, month) ]`. The numeric day is kept as a `Nat`
(the source stores `str(day)`; `None` becomes `none`). `itermonthdays` yields
the leading blanks, then days 1..ndays, then the trailing blanks. -/
def month_days (year month firstweekday : Nat) : List (Option Nat) :=
  List.replicate (leading_blanks year month firstweekday) none
    ++ (List.range (daysInMonth year month)).map (fun i => some (i + 1))
    ++ List.replicate (trailing_blanks year month firstweekday) none

/-- Source `month_weeks = len(month_days)//7`. -/
def month_weeks (year month firstweekday : Nat) : Nat :=
  (month_days year month firstweekday).length / 7

/-- Source column `days = list(day_names)*month_weeks`. -/
def source_days (year month firstweekday : Nat) : List String :=
  List.flatten (List.replicate (month_weeks year month firstweekday) (day_names firstweekday))

/-- Source column `weeks = sum([ [str(week)]*7 for week in range(month_weeks) ], [])`. -/
def source_weeks (year month firstweekday : Nat) : List String :=
  List.flatten ((List.range (month_weeks year month firstweekday)).map
    (fun w => List.replicate 7 (toString w)))

/-- Source column `day_backgrounds = sum([week_days]*month_weeks, [])`. -/
def day_backgrounds (year month firstweekday : Nat) : List String :=
  List.flatten (List.replicate (month_weeks year month firstweekday) (week_days firstweekday))

/-- Python `"(US-OPM)" in summary`, on the character list of the summary. -/
def hasUSOPM : List Char → Bool
  | '(' :: 'U' :: 'S' :: '-' :: 'O' :: 'P' :: 'M' :: ')' :: _ => true
  | _ :: rest => hasUSOPM rest
  | [] => false

/-- Python `summary.replace("(US-OPM)", "")`: delete every occurrence,
scanning left to right. -/
def delUSOPM : List Char → List Char
  | '(' :: 'U' :: 'S' :: '-' :: 'O' :: 'P' :: 'M' :: ')' :: rest => delUSOPM rest
  | c :: rest => c :: delUSOPM rest
  | [] => []

/-- ASCII whitespace recognised by Python `str.strip()`. -/
def isPySpace (c : Char) : Bool :=
  c == ' ' || c == '\t' || c == '\n' || c == '\r' || c == Char.ofNat 11 || c == Char.ofNat 12

/-- Python `s.strip()`: drop leading and trailing whitespace. -/
def pyStrip (s : List Char) : List Char :=
  ((s.dropWhile isPySpace).reverse.dropWhile isPySpace).reverse

/-- Source `holidays`: `[ (date, summary.replace("(US-OPM)", "").strip())
for (date, summary) in us_holidays if date.year == year and date.month == month
and "(US-OPM)" in summary ]`, with the global `us_holidays` as parameter `input`. -/
def holidays (year month : Nat) (input : List (PyDate × String)) : List (PyDate × String) :=
  (input.filter (fun p => p.1.year == year && p.1.month == month && hasUSOPM p.2.data)).map
    (fun p => (p.1, String.mk (pyStrip (delUSOPM p.2.data))))

/-- Source column `holidays_days = [ day_names[weekday(date)] for date, _ in holidays ]`. -/
def holidays_days (year month firstweekday : Nat) (input : List (PyDate × String)) : List String :=
  (holidays year month input).map
    (fun p => (day_names firstweekday).getD (weekdayRel firstweekday p.1) "")

/-- Source column `holidays_weeks = [ str((weekday(date.replace(day=1)) + date.day) // 7)
for date, _ in holidays ]`. -/
def holidays_weeks (year month firstweekday : Nat) (input : List (PyDate × String)) : List String :=
  (holidays year month input).map
    (fun p => toString ((weekdayRel firstweekday ⟨p.1.year, p.1.month, 1⟩ + p.1.day) / 7))

/-- Source column `month_holidays = [ summary for _, summary in holidays ]`. -/
def month_holidays (year month : Nat) (input : List (PyDate × String)) : List String :=
  (holidays year month input).map Prod.snd

/-- The data columns assembled by `make_calendar` (the two `ColumnDataSource`s). -/
structure CalendarData where
  days : List String
  weeks : List String
  monthDays : List (Option Nat)
  dayBackgrounds : List String
  holidaysDays : List String
  holidaysWeeks : List String
  monthHolidays : List String
deriving DecidableEq, Repr

/-- Source `make_calendar(year, month, firstweekday)`, restricted to its data
computation. `list(day_abbrs).index(firstweekday)` raises `ValueError` for an
unrecognised name; `calendar.monthrange` (reached via `itermonthdays`) raises
`IllegalMonthError` for a month outside 1..12, then builds `date(year, month, 1)`,
which raises for a year outside 1..9999. -/
def make_calendar (year month : Nat) (firstweekday : String)
    (input : List (PyDate × String)) : Except String CalendarData :=
  if firstweekday ∈ day_abbrs then
    if 1 ≤ month ∧ month ≤ 12 then
      if 1 ≤ year ∧ year ≤ 9999 then
        let fw := day_abbrs.indexOf firstweekday
        .ok { days := source_days year month fw
              weeks := source_weeks year month fw
              monthDays := month_days year month fw
              dayBackgrounds := day_backgrounds year month fw
              holidaysDays := holidays_days year month fw input
              holidaysWeeks := holidays_weeks year month fw input
              monthHolidays := month_holidays year month input }
      else .error "ValueError: year out of range"
    else .error "IllegalMonthError"
  else .error "ValueError: unrecognised weekday name"

/-! Helper lemmas. -/

theorem length_month_days (year month firstweekday : Nat) :
    (month_days year month firstweekday).length =
      leading_blanks year month firstweekday + daysInMonth year month
        + trailing_blanks year month firstweekday := by
  simp [month_days]
  omega

theorem length_month_days_ceil (year month firstweekday : Nat) :
    (month_days year month firstweekday).length =
      7 * ((leading_blanks year month firstweekday + daysInMonth year month + 6) / 7) := by
  rw [length_month_days]
  unfold leading_blanks trailing_blanks
  generalize pyWeekday ⟨year, month, 1⟩ = w
  generalize daysInMonth year month = n
  omega

theorem seven_mul_month_weeks (year month firstweekday : Nat) :
    7 * month_weeks year month firstweekday = (month_days year month firstweekday).length := by
  unfold month_weeks
  rw [length_month_days_ceil]
  omega

theorem flatten_replicate_getD (L : List String) (hL : L.length = 7) (w p : Nat)
    (hp : p < 7 * w) :
    (List.flatten (List.replicate w L)).getD p "" = L.getD (p % 7) "" := by
  induction w generalizing p with
  | zero => omega
  | succ k ih =>
    rw [List.replicate_succ, List.flatten_cons]
    by_cases h : p < 7
    · rw [List.getD_append _ _ _ _ (by omega)]
      congr 1
      omega
    · rw [List.getD_append_right _ _ _ _ (by omega), hL]
      rw [ih (p - 7) (by omega)]
      congr 1
      omega

theorem flatten_weeks_length (w : Nat) :
    (List.flatten ((List.range w).map (fun k => List.replicate 7 (toString k)))).length
      = 7 * w := by
  induction w with
  | zero => simp
  | succ k ih =>
    rw [List.range_succ, List.map_append, List.flatten_append]
    simp only [List.length_append, ih]
    simp
    omega

theorem flatten_weeks_getD (w p : Nat) (hp : p < 7 * w) :
    (List.flatten ((List.range w).map (fun k => List.replicate 7 (toString k)))).getD p ""
      = toString (p / 7) := by
  induction w with
  | zero => omega
  | succ k ih =>
    rw [List.range_succ, List.map_append, List.flatten_append]
    by_cases h : p < 7 * k
    · rw [List.getD_append _ _ _ _ (by rw [flatten_weeks_length]; omega)]
      exact ih h
    · rw [List.getD_append_right _ _ _ _ (by rw [flatten_weeks_length]; omega)]
      rw [flatten_weeks_length]
      simp only [List.map_cons, List.map_nil, List.flatten_cons, List.flatten_nil,
        List.append_nil]
      rw [List.getD_eq_getElem _ _ (by simp; omega)]
      rw [List.getElem_replicate]
      congr 1
      omega

theorem month_days_getD_some (year month firstweekday pos d : Nat)
    (hd : (month_days year month firstweekday).getD pos none = some d) :
    1 ≤ d ∧ d ≤ daysInMonth year month ∧
      pos = leading_blanks year month firstweekday + d - 1 := by
  unfold month_days at hd
  rcases Nat.lt_or_ge pos
      (leading_blanks year month firstweekday + daysInMonth year month) with h | h
  · rw [List.getD_append _ _ _ _ (by simp; omega)] at hd
    rcases Nat.lt_or_ge pos (leading_blanks year month firstweekday) with h1 | h1
    · rw [List.getD_append _ _ _ _ (by simpa using h1)] at hd
      rw [List.getD_eq_getElem _ _ (by simpa using h1), List.getElem_replicate] at hd
      exact absurd hd (by simp)
    · rw [List.getD_append_right _ _ _ _ (by simpa using h1)] at hd
      rw [List.length_replicate] at hd
      rw [List.getD_eq_getElem _ _ (by simp; omega)] at hd
      rw [List.getElem_map, List.getElem_range] at hd
      have : pos - leading_blanks year month firstweekday + 1 = d := by
        simpa using hd
      omega
  · rw [List.getD_append_right _ _ _ _ (by simp; omega)] at hd
    rcases Nat.lt_or_ge (pos - (List.replicate (leading_blanks year month firstweekday)
          (none : Option Nat) ++ (List.range (daysInMonth year month)).map
          (fun i => some (i + 1))).length)
        (trailing_blanks year month firstweekday) with h3 | h3
    · rw [List.getD_eq_getElem _ _ (by simpa using h3), List.getElem_replicate] at hd
      exact absurd hd (by simp)
    · rw [List.getD_eq_default _ _ (by simpa using h3)] at hd
      exact absurd hd (by simp)

theorem month_days_getD_at (year month firstweekday d : Nat)
    (h1 : 1 ≤ d) (h2 : d ≤ daysInMonth year month) :
    (month_days year month firstweekday).getD
      (leading_blanks year month firstweekday + d - 1) none = some d := by
  unfold month_days
  rw [List.getD_append _ _ _ _ (by simp; omega)]
  rw [List.getD_append_right _ _ _ _ (by simp; omega)]
  rw [List.length_replicate]
  rw [List.getD_eq_getElem _ _ (by simp; omega)]
  rw [List.getElem_map, List.getElem_range]
  congr 1
  omega

theorem weekdayRel_day (year month firstweekday d : Nat) (hd : 1 ≤ d) :
    weekdayRel firstweekday ⟨year, month, d⟩ =
      (leading_blanks year month firstweekday + d - 1) % 7 := by
  unfold weekdayRel leading_blanks pyWeekday toOrdinal
  dsimp only
  generalize days_before_year year + days_before_month year month = B
  omega

theorem mem_holidays_proj (year month : Nat) (input : List (PyDate × String))
    (q : PyDate × String) (hq : q ∈ holidays year month input) :
    q.1.year = year ∧ q.1.month = month := by
  unfold holidays at hq
  rcases List.mem_map.mp hq with ⟨a, ha, rfl⟩
  rcases List.mem_filter.mp ha with ⟨-, hcond⟩
  simp only [Bool.and_eq_true, beq_iff_eq] at hcond
  exact ⟨hcond.1.1, hcond.1.2⟩

theorem count_some_range (n d : Nat) :
    ((List.range n).map (fun i => some (i + 1))).count (some d)
      = if 1 ≤ d ∧ d ≤ n then 1 else 0 := by
  induction n with
  | zero =>
    simp only [List.range_zero, List.map_nil, List.count_nil]
    split_ifs <;> omega
  | succ k ih =>
    rw [List.range_succ, List.map_append, List.count_append, ih]
    simp only [List.map_cons, List.map_nil]
    rw [List.count_cons, List.count_nil]
    simp only [beq_iff_eq, Option.some.injEq]
    split_ifs <;> omega

theorem indexOf_day_names (firstweekday w : Nat) (hfw : firstweekday < 7) (hw : w < 7) :
    (day_names firstweekday).indexOf (day_abbrs.getD w "") =
      (((w : Int) - (firstweekday : Int)) % 7).toNat := by
  interval_cases firstweekday <;> interval_cases w <;> rfl

theorem day_names_getD_true_abbr (firstweekday w : Nat) (hfw : firstweekday < 7)
    (hw : w < 7) :
    (day_names firstweekday).getD ((((w : Int) - (firstweekday : Int)) % 7).toNat) ""
      = day_abbrs.getD w "" := by
  interval_cases firstweekday <;> interval_cases w <;> rfl

theorem indexOf_day_abbrs_lt (firstweekday : String) (h : firstweekday ∈ day_abbrs) :
    day_abbrs.indexOf firstweekday < 7 := by
  have : day_abbrs.indexOf firstweekday < day_abbrs.length := List.indexOf_lt_length.mpr h
  simpa [day_abbrs] using this

theorem pyWeekday_lt (dt : PyDate) : pyWeekday dt < 7 :=
  Nat.mod_lt _ (by omega)

/-! Claim theorems. -/

/-- C3: for every (year, month) and firstweekday index, the month grid has
length exactly 7 × weekCount where weekCount = ceil((leading blanks + days in
month) / 7); in particular the length is a multiple of 7. -/
theorem claim3_grid_length (year month firstweekday : Nat) :
    (month_days year month firstweekday).length =
      7 * ((leading_blanks year month firstweekday + daysInMonth year month + 6) / 7) ∧
    (month_days year month firstweekday).length % 7 = 0 := by
  refine ⟨length_month_days_ceil year month firstweekday, ?_⟩
  rw [length_month_days_ceil]
  omega

/-- C4: in the built grid, each day value d occurs exactly once among the
non-blank cells when 1 ≤ d ≤ daysInMonth(year, month), and never otherwise
(so February of a non-leap year has no cell 29). -/
theorem claim4_days_exactly_once (year month firstweekday d : Nat) :
    (month_days year month firstweekday).count (some d)
      = if 1 ≤ d ∧ d ≤ daysInMonth year month then 1 else 0 := by
  unfold month_days
  rw [List.count_append, List.count_append, count_some_range]
  rw [List.count_replicate, List.count_replicate]
  simp

/-- C5: the weekday label assigned to each retained date by the highlight
build is the rotated weekday-name list indexed at
(date.weekday() − index of firstweekday) mod 7. -/
theorem claim5_weekday_label_formula (year month : Nat) (firstweekday : String)
    (input : List (PyDate × String)) :
    holidays_days year month (day_abbrs.indexOf firstweekday) input =
      (holidays year month input).map (fun p =>
        (day_names (day_abbrs.indexOf firstweekday)).getD
          ((((pyWeekday p.1 : Int) - ((day_abbrs.indexOf firstweekday : Nat) : Int)) % 7).toNat)
          "") := rfl

/-- C8: a month outside 1..12 or a firstweekday name outside the seven
recognised abbreviations makes make_calendar return an error, never a grid. -/
theorem claim8_invalid_config_errors (year month : Nat) (firstweekday : String)
    (input : List (PyDate × String))
    (h : month < 1 ∨ 12 < month ∨ firstweekday ∉ day_abbrs) :
    ∃ e, make_calendar year month firstweekday input = .error e := by
  unfold make_calendar
  split_ifs with h1 h2 h3
  · rcases h with h | h | h
    · omega
    · omega
    · exact absurd h1 h
  all_goals exact ⟨_, rfl⟩

/-- C8 witness: month 13 is rejected. -/
theorem claim8_invalid_config_errors_witness :
    ∃ e, make_calendar 2014 13 "Mon" [] = .error e :=
  claim8_invalid_config_errors 2014 13 "Mon" [] (by decide)

/-- C7 counterexample: an annotated date inside the target month/year whose
summary lacks the marker "(US-OPM)" is NOT retained, so the filter keeps
strictly fewer entries than "all dates whose year and month match". -/
theorem claim7_counterexample :
    (⟨2014, 3, 17⟩ : PyDate).year = 2014 ∧ (⟨2014, 3, 17⟩ : PyDate).month = 3 ∧
    holidays 2014 3 [(⟨2014, 3, 17⟩, "Holiday X")] = [] := by
  decide

/-- C7 amended: the highlight build retains exactly those input dates whose
year and month match the config AND whose summary contains "(US-OPM)", as a
stable filter in input order; everything else is silently dropped. -/
theorem claim7_amended_stable_filter (year month : Nat) (input : List (PyDate × String)) :
    (holidays year month input).map Prod.fst =
      (input.filter (fun p => p.1.year == year && p.1.month == month
        && hasUSOPM p.2.data)).map Prod.fst ∧
    ∀ dt : PyDate, (dt ∈ (holidays year month input).map Prod.fst ↔
      ∃ s : String, (dt, s) ∈ input ∧ dt.year = year ∧ dt.month = month
        ∧ hasUSOPM s.data = true) := by
  constructor
  · unfold holidays
    rw [List.map_map]
    rfl
  · intro dt
    unfold holidays
    rw [List.map_map]
    constructor
    · intro hmem
      rcases List.mem_map.mp hmem with ⟨a, ha, hfst⟩
      rcases List.mem_filter.mp ha with ⟨hin, hcond⟩
      simp only [Bool.and_eq_true, beq_iff_eq] at hcond
      refine ⟨a.2, ?_, ?_, ?_, hcond.2⟩
      · simpa [← hfst] using hin
      · rw [← hfst]; exact hcond.1.1
      · rw [← hfst]; exact hcond.1.2
    · rintro ⟨s, hin, hy, hm, hus⟩
      refine List.mem_map.mpr ⟨(dt, s), List.mem_filter.mpr ⟨hin, ?_⟩, rfl⟩
      simp only [Bool.and_eq_true, beq_iff_eq]
      exact ⟨⟨hy, hm⟩, hus⟩

/-- C7 amended witness: a matching date with the marker is retained. -/
theorem claim7_amended_stable_filter_witness :
    (⟨2014, 1, 1⟩ : PyDate) ∈ (holidays 2014 1
      [(⟨2014, 1, 1⟩, "New Years Day (US-OPM)")]).map Prod.fst :=
  ((claim7_amended_stable_filter 2014 1 _).2 ⟨2014, 1, 1⟩).mpr
    ⟨"New Years Day (US-OPM)", by decide, rfl, rfl, by decide⟩

/-- C10: only annotated dates whose summary contains "(US-OPM)" contribute a
highlight (filtering the input to such summaries changes nothing), and every
retained pair carries the original summary with "(US-OPM)" deleted and
whitespace stripped. -/
theorem claim10_usopm_label (year month : Nat) (input : List (PyDate × String)) :
    holidays year month input
        = holidays year month (input.filter (fun p => hasUSOPM p.2.data)) ∧
    ∀ q ∈ holidays year month input, ∃ s : String, (q.1, s) ∈ input ∧
      hasUSOPM s.data = true ∧ q.2.data = pyStrip (delUSOPM s.data) := by
  constructor
  · unfold holidays
    rw [List.filter_filter]
    congr 1
    apply List.filter_congr
    intro p _
    cases h : hasUSOPM p.2.data <;> simp [h]
  · intro q hq
    unfold holidays at hq
    rcases List.mem_map.mp hq with ⟨a, ha, hfst⟩
    rcases List.mem_filter.mp ha with ⟨hin, hcond⟩
    simp only [Bool.and_eq_true, beq_iff_eq] at hcond
    refine ⟨a.2, ?_, hcond.2, ?_⟩
    · rw [← hfst]; exact hin
    · rw [← hfst]

/-- C10 witness: the marker is deleted and surrounding whitespace stripped. -/
theorem claim10_usopm_label_witness :
    ∃ s : String, ((⟨2014, 1, 1⟩ : PyDate), s)
        ∈ [((⟨2014, 1, 1⟩ : PyDate), "New Years Day (US-OPM)")] ∧
      hasUSOPM s.data = true ∧
      ("New Years Day").data = pyStrip (delUSOPM s.data) :=
  (claim10_usopm_label 2014 1 [(⟨2014, 1, 1⟩, "New Years Day (US-OPM)")]).2
    (⟨2014, 1, 1⟩, "New Years Day") (by decide)

/-- C2: every highlight week index is (position of the first-of-month's
weekday abbreviation within the rotated weekday ordering, plus the
day-of-month) integer-divided by 7. -/
theorem claim2_week_index_formula (year month : Nat) (firstweekday : String)
    (input : List (PyDate × String)) (hfw : firstweekday ∈ day_abbrs) :
    holidays_weeks year month (day_abbrs.indexOf firstweekday) input =
      (holidays year month input).map (fun p => toString
        (((day_names (day_abbrs.indexOf firstweekday)).indexOf
            (day_abbrs.getD (pyWeekday ⟨year, month, 1⟩) "") + p.1.day) / 7)) := by
  unfold holidays_weeks
  apply List.map_congr_left
  intro p hp
  obtain ⟨hy, hm⟩ := mem_holidays_proj year month input p hp
  rw [indexOf_day_names _ _ (indexOf_day_abbrs_lt _ hfw) (pyWeekday_lt _)]
  rw [hy, hm]
  rfl

/-- C2 witness: MLK day 2014-01-20 with firstweekday "Mon" gets week 3. -/
theorem claim2_week_index_formula_witness :
    holidays_weeks 2014 1 (day_abbrs.indexOf "Mon")
        [(⟨2014, 1, 20⟩, "Birthday of Martin Luther King, Jr. (US-OPM)")] =
      (holidays 2014 1 [(⟨2014, 1, 20⟩, "Birthday of Martin Luther King, Jr. (US-OPM)")]).map
        (fun p => toString
          (((day_names (day_abbrs.indexOf "Mon")).indexOf
              (day_abbrs.getD (pyWeekday ⟨2014, 1, 1⟩) "") + p.1.day) / 7)) :=
  claim2_week_index_formula 2014 1 "Mon" _ (by decide)

/-- C9 (implicit): the weekday label assigned to a date does not depend on the
chosen firstweekday: the rotation of the name list and the rotation of the
index cancel, leaving the date's true weekday abbreviation. -/
theorem claim9_label_rotation_invariant (firstweekday : String) (dt : PyDate)
    (hfw : firstweekday ∈ day_abbrs) :
    (day_names (day_abbrs.indexOf firstweekday)).getD
        (weekdayRel (day_abbrs.indexOf firstweekday) dt) ""
      = day_abbrs.getD (pyWeekday dt) "" := by
  have hfw7 : day_abbrs.indexOf firstweekday < 7 := indexOf_day_abbrs_lt _ hfw
  have hw : pyWeekday dt < 7 := pyWeekday_lt dt
  unfold weekdayRel
  generalize day_abbrs.indexOf firstweekday = fw at *
  generalize pyWeekday dt = w at *
  exact day_names_getD_true_abbr fw w hfw7 hw

/-- C9 witness: 2014-07-04 is labelled "Fri" even with firstweekday "Wed". -/
theorem claim9_label_rotation_invariant_witness :
    (day_names (day_abbrs.indexOf "Wed")).getD
        (weekdayRel (day_abbrs.indexOf "Wed") ⟨2014, 7, 4⟩) ""
      = day_abbrs.getD (pyWeekday ⟨2014, 7, 4⟩) "" :=
  claim9_label_rotation_invariant "Wed" ⟨2014, 7, 4⟩ (by decide)

/-- C6: a day cell of the grid carries the weekend background colour exactly
when its weekday column is one of the last two canonical weekday names
("Sat", "Sun"); the background assignment is rotated together with
firstweekday, so this holds for every valid firstweekday. -/
theorem claim6_weekend_background (year month : Nat) (firstweekday : String) (p : Nat)
    (hfw : firstweekday ∈ day_abbrs)
    (hp : p < (month_days year month (day_abbrs.indexOf firstweekday)).length) :
    ((day_backgrounds year month (day_abbrs.indexOf firstweekday)).getD p "" = weekend
      ↔ ((source_days year month (day_abbrs.indexOf firstweekday)).getD p ""
            = day_abbrs.getD 5 ""
        ∨ (source_days year month (day_abbrs.indexOf firstweekday)).getD p ""
            = day_abbrs.getD 6 "")) := by
  have hfw7 : day_abbrs.indexOf firstweekday < 7 := indexOf_day_abbrs_lt _ hfw
  generalize day_abbrs.indexOf firstweekday = fw at *
  have hp7 : p < 7 * month_weeks year month fw := by
    rw [seven_mul_month_weeks]; exact hp
  unfold day_backgrounds source_days
  rw [flatten_replicate_getD _ (by rfl) _ _ hp7, flatten_replicate_getD _ (by rfl) _ _ hp7]
  have hj : p % 7 < 7 := Nat.mod_lt _ (by omega)
  generalize p % 7 = j at hj
  interval_cases fw <;> interval_cases j <;> decide

/-- C6 witness: March 2014, firstweekday "Mon", cell 5 is a Saturday cell with
the weekend background. -/
theorem claim6_weekend_background_witness :
    ((day_backgrounds 2014 3 (day_abbrs.indexOf "Mon")).getD 5 "" = weekend
      ↔ ((source_days 2014 3 (day_abbrs.indexOf "Mon")).getD 5 "" = day_abbrs.getD 5 ""
        ∨ (source_days 2014 3 (day_abbrs.indexOf "Mon")).getD 5 "" = day_abbrs.getD 6 "")) :=
  claim6_weekend_background 2014 3 "Mon" 5 (by decide) (by decide)

/-- C1 counterexample: with firstweekday "Tue", the retained holiday
2014-01-20 (a Monday, hence the last weekday column) sits in grid row 2
(the day cell at index 20 holds day 20 and week label "2"), but the highlight
build places it at week label "3": the (weekdayLabel, weekIndex) pairs differ. -/
theorem claim1_counterexample :
    "Tue" ∈ day_abbrs ∧
    holidays 2014 1 [(⟨2014, 1, 20⟩, "Birthday of Martin Luther King, Jr. (US-OPM)")]
      = [(⟨2014, 1, 20⟩, "Birthday of Martin Luther King, Jr.")] ∧
    (month_days 2014 1 (day_abbrs.indexOf "Tue")).getD 20 none = some 20 ∧
    (holidays_days 2014 1 (day_abbrs.indexOf "Tue")
        [(⟨2014, 1, 20⟩, "Birthday of Martin Luther King, Jr. (US-OPM)")]).getD 0 ""
      = (source_days 2014 1 (day_abbrs.indexOf "Tue")).getD 20 "" ∧
    (holidays_weeks 2014 1 (day_abbrs.indexOf "Tue")
        [(⟨2014, 1, 20⟩, "Birthday of Martin Luther King, Jr. (US-OPM)")]).getD 0 ""
      ≠ (source_weeks 2014 1 (day_abbrs.indexOf "Tue")).getD 20 "" := by
  decide

/-- C1 amended: for every retained annotated date, the highlight's weekday
label equals the weekday label of the day cell holding that day-of-month;
the week indices agree whenever the date does not fall in the last weekday
column of the grid ((leading blanks + day) % 7 nonzero), and for a date in
the last column the highlight's week index is exactly one greater than the
day cell's. -/
theorem claim1_amended_highlight_alignment (year month : Nat) (firstweekday : String)
    (input : List (PyDate × String)) (q : PyDate × String) (k pos : Nat)
    (hfw : firstweekday ∈ day_abbrs)
    (hk : (holidays year month input)[k]? = some q)
    (hcell : (month_days year month (day_abbrs.indexOf firstweekday)).getD pos none
      = some q.1.day) :
    (holidays_days year month (day_abbrs.indexOf firstweekday) input).getD k ""
      = (source_days year month (day_abbrs.indexOf firstweekday)).getD pos "" ∧
    ∃ r : Nat, (source_weeks year month (day_abbrs.indexOf firstweekday)).getD pos ""
        = toString r ∧
      (holidays_weeks year month (day_abbrs.indexOf firstweekday) input).getD k ""
        = toString (r + (if (leading_blanks year month (day_abbrs.indexOf firstweekday)
            + q.1.day) % 7 = 0 then 1 else 0)) := by
  have hfw7 : day_abbrs.indexOf firstweekday < 7 := indexOf_day_abbrs_lt _ hfw
  generalize day_abbrs.indexOf firstweekday = fw at *
  have hq : q ∈ holidays year month input := by
    have := List.getElem?_eq_some.mp hk
    exact this.choose_spec ▸ List.getElem_mem _
  obtain ⟨hy, hm⟩ := mem_holidays_proj year month input q hq
  obtain ⟨hd1, hdn, hpos⟩ := month_days_getD_some year month fw pos q.1.day hcell
  have hpos7 : pos < 7 * month_weeks year month fw := by
    rw [seven_mul_month_weeks, length_month_days]
    omega
  have hdays : (holidays_days year month fw input).getD k ""
      = (day_names fw).getD (weekdayRel fw q.1) "" := by
    rw [List.getD_eq_getElem?_getD]
    unfold holidays_days
    rw [List.getElem?_map, hk]
    rfl
  have hweeks : (holidays_weeks year month fw input).getD k ""
      = toString ((weekdayRel fw ⟨q.1.year, q.1.month, 1⟩ + q.1.day) / 7) := by
    rw [List.getD_eq_getElem?_getD]
    unfold holidays_weeks
    rw [List.getElem?_map, hk]
    rfl
  constructor
  · rw [hdays]
    unfold source_days
    rw [flatten_replicate_getD _ (by rfl) _ _ hpos7]
    have hqeta : q.1 = ⟨q.1.year, q.1.month, q.1.day⟩ := rfl
    rw [hqeta, weekdayRel_day q.1.year q.1.month fw q.1.day hd1, hy, hm, hpos]
  · refine ⟨pos / 7, ?_, ?_⟩
    · unfold source_weeks
      rw [flatten_weeks_getD _ _ hpos7]
    · rw [hweeks]
      rw [hy, hm]
      have hlead : weekdayRel fw ⟨year, month, 1⟩ = leading_blanks year month fw := rfl
      rw [hlead]
      congr 1
      split_ifs <;> omega

/-- C1 amended witness: MLK day 2014-01-20 with firstweekday "Tue" sits in
the last weekday column (day cell at index 20), so the labels agree and the
highlight week index is the day cell's week index plus one. -/
theorem claim1_amended_highlight_alignment_witness :
    (holidays_days 2014 1 (day_abbrs.indexOf "Tue")
        [(⟨2014, 1, 20⟩, "Birthday of Martin Luther King, Jr. (US-OPM)")]).getD 0 ""
      = (source_days 2014 1 (day_abbrs.indexOf "Tue")).getD 20 "" ∧
    ∃ r : Nat, (source_weeks 2014 1 (day_abbrs.indexOf "Tue")).getD 20 "" = toString r ∧
      (holidays_weeks 2014 1 (day_abbrs.indexOf "Tue")
          [(⟨2014, 1, 20⟩, "Birthday of Martin Luther King, Jr. (US-OPM)")]).getD 0 ""
        = toString (r + (if (leading_blanks 2014 1 (day_abbrs.indexOf "Tue") + 20) % 7 = 0
            then 1 else 0)) :=
  claim1_amended_highlight_alignment 2014 1 "Tue"
    [(⟨2014, 1, 20⟩, "Birthday of Martin Luther King, Jr. (US-OPM)")]
    (⟨2014, 1, 20⟩, "Birthday of Martin Luther King, Jr.") 0 20
    (by decide) (by decide) (by decide)

end Calendars
